import Mathlib

/-!
Verification of the tool-dispatch core of the Yahoo-Finance Streamlit app
(`streamlit_app.py`).  The dispatcher's execute block, its payload
classification (the `json.loads` / DataFrame branch), the CSV export, the
static tool registry, and the `run_async` event-loop bridge are embedded
shallowly below; Python exceptions are threaded explicitly as `Except`
values, `json.loads` and the CSV writer/reader are modelled as executable
functions, and machine behaviour that the app never relies on (floating
point NaN filling, surrogate pairing) is kept out of the claims.
-/

/-! ## Python-level values and exceptions -/

/-- A Python runtime value as the app can receive one from a tool call:
`None`, `bool`, `int`, `str`, `list`, or `dict`. -/
inductive PyVal where
  | vnone
  | vbool (b : Bool)
  | vint (n : Int)
  | vstr (s : String)
  | vlist (xs : List PyVal)
  | vdict (kvs : List (String × PyVal))

/-- Python truthiness, as tested by `if result:`. -/
def truthy : PyVal → Bool
  | .vnone => false
  | .vbool b => b
  | .vint n => !(n == 0)
  | .vstr s => !(s == "")
  | .vlist xs => !xs.isEmpty
  | .vdict kvs => !kvs.isEmpty

/-- The Python type name, as it appears in an `AttributeError` message. -/
def pyTypeName : PyVal → String
  | .vnone => "NoneType"
  | .vbool _ => "bool"
  | .vint _ => "int"
  | .vstr _ => "str"
  | .vlist _ => "list"
  | .vdict _ => "dict"

/-- Whether a value is a Python `str`, as tested by `isinstance(result, str)`. -/
def isStr : PyVal → Bool
  | .vstr _ => true
  | _ => false

/-- The Python exceptions that can cross the dispatcher's boundaries. -/
inductive PyExn where
  | attributeError (msg : String)
  | jsonDecodeError (msg : String)
  | valueError (msg : String)
  | validationError (msg : String)
  | providerError (msg : String)

/-- `str(e)` for an exception, as interpolated into the error banner. -/
def exnStr : PyExn → String
  | .attributeError m => m
  | .jsonDecodeError m => m
  | .valueError m => m
  | .validationError m => m
  | .providerError m => m

/-- The text of the error banner: `st.error(f"❌ Error: \x7bstr(e)\x7d")`. -/
def errMsg (e : PyExn) : String := "❌ Error: " ++ exnStr e

/-! ## `str.startswith` -/

/-- Does `cs` start with `ps`? -/
def listStarts : List Char → List Char → Bool
  | _, [] => true
  | [], _ :: _ => false
  | c :: cs, p :: ps => c == p && listStarts cs ps

/-- Python's `s.startswith(pre)` for strings. -/
def pyStartsWith (s pre : String) : Bool := listStarts s.toList pre.toList

/-! ## JSON values and `json.loads` -/

/-- A parsed JSON value as Python's `json.loads` produces it.  Integral
numbers become Python `int`s (so `-0` parses to `0`); numbers with a
fraction or exponent become floats, kept here by their lexeme. -/
inductive JVal where
  | jnull
  | jbool (b : Bool)
  | jint (n : Int)
  | jfloat (lexeme : String)
  | jstr (s : String)
  | jarr (elems : List JVal)
  | jobj (fields : List (String × JVal))

/-- `isinstance(data, dict)` on a parsed JSON value. -/
def isObjV : JVal → Bool
  | .jobj _ => true
  | _ => false

/-- The keys of a parsed JSON object, in insertion order. -/
def objKeys : JVal → List String
  | .jobj kvs => kvs.map Prod.fst
  | _ => []

/-- Skip JSON whitespace. -/
def skipWs : List Char → List Char
  | [] => []
  | c :: t => if c = ' ' ∨ c = '\t' ∨ c = '\n' ∨ c = '\r' then skipWs t else c :: t

/-- Hexadecimal digit value, for `\u` escapes. -/
def hexVal (c : Char) : Option Nat :=
  if '0' ≤ c ∧ c ≤ '9' then some (c.toNat - 48)
  else if 'a' ≤ c ∧ c ≤ 'f' then some (c.toNat - 87)
  else if 'A' ≤ c ∧ c ≤ 'F' then some (c.toNat - 55)
  else none

/-- Parse the body of a JSON string (the opening quote already consumed),
handling the standard escapes; bare control characters are rejected as in
Python's strict default. -/
def parseJStringAux : Nat → List Char → List Char → Option (String × List Char)
  | 0, _, _ => none
  | _ + 1, [], _ => none
  | fuel + 1, c :: rest, acc =>
    if c = '"' then some (String.mk acc.reverse, rest)
    else if c = '\\' then
      match rest with
      | [] => none
      | e :: r2 =>
        if e = '"' then parseJStringAux fuel r2 ('"' :: acc)
        else if e = '\\' then parseJStringAux fuel r2 ('\\' :: acc)
        else if e = '/' then parseJStringAux fuel r2 ('/' :: acc)
        else if e = 'b' then parseJStringAux fuel r2 (Char.ofNat 8 :: acc)
        else if e = 'f' then parseJStringAux fuel r2 (Char.ofNat 12 :: acc)
        else if e = 'n' then parseJStringAux fuel r2 ('\n' :: acc)
        else if e = 'r' then parseJStringAux fuel r2 ('\r' :: acc)
        else if e = 't' then parseJStringAux fuel r2 ('\t' :: acc)
        else if e = 'u' then
          match r2 with
          | a :: b :: c2 :: d :: r3 =>
            match hexVal a, hexVal b, hexVal c2, hexVal d with
            | some ha, some hb, some hc, some hd =>
                parseJStringAux fuel r3
                  (Char.ofNat (((ha * 16 + hb) * 16 + hc) * 16 + hd) :: acc)
            | _, _, _, _ => none
          | _ => none
        else none
    else if c.toNat < 32 then none
    else parseJStringAux fuel rest (c :: acc)

/-- Parse a JSON string body, with enough fuel for its own length. -/
def parseJString (cs : List Char) : Option (String × List Char) :=
  parseJStringAux (cs.length + 1) cs []

/-- Numeric value of a digit character. -/
def digitVal (c : Char) : Nat := c.toNat - 48

/-- The natural number denoted by a digit string. -/
def natOfDigits (ds : List Char) : Nat := ds.foldl (fun n c => 10 * n + digitVal c) 0

/-- Parse a JSON number.  A plain integer lexeme yields `jint` (as Python's
`int`); a fraction or exponent yields `jfloat` carrying the lexeme. -/
def parseNum (cs : List Char) : Option (JVal × List Char) :=
  let sign : Bool × List Char :=
    match cs with
    | '-' :: t => (true, t)
    | _ => (false, cs)
  let intSpan := sign.2.span Char.isDigit
  if intSpan.1.isEmpty then none
  else if intSpan.1.length > 1 && intSpan.1.headD '0' = '0' then none
  else
    let fracSpan : List Char × List Char :=
      match intSpan.2 with
      | '.' :: t => (('.' :: (t.span Char.isDigit).1), (t.span Char.isDigit).2)
      | _ => ([], intSpan.2)
    if fracSpan.1 == ['.'] then none
    else
      match fracSpan.2 with
      | e :: t =>
        if e = 'e' ∨ e = 'E' then
          let signE : List Char × List Char :=
            match t with
            | '+' :: u => (['+'], u)
            | '-' :: u => (['-'], u)
            | _ => ([], t)
          let expSpan := signE.2.span Char.isDigit
          if expSpan.1.isEmpty then none
          else
            some (.jfloat (String.mk ((if sign.1 then ['-'] else []) ++ intSpan.1 ++
              fracSpan.1 ++ e :: signE.1 ++ expSpan.1)), expSpan.2)
        else if fracSpan.1.isEmpty then
          some (.jint (if sign.1 then -(Int.ofNat (natOfDigits intSpan.1))
            else Int.ofNat (natOfDigits intSpan.1)), fracSpan.2)
        else
          some (.jfloat (String.mk ((if sign.1 then ['-'] else []) ++ intSpan.1 ++
            fracSpan.1)), fracSpan.2)
      | [] =>
        if fracSpan.1.isEmpty then
          some (.jint (if sign.1 then -(Int.ofNat (natOfDigits intSpan.1))
            else Int.ofNat (natOfDigits intSpan.1)), [])
        else
          some (.jfloat (String.mk ((if sign.1 then ['-'] else []) ++ intSpan.1 ++
            fracSpan.1)), [])

/-- Insert-or-update into an association list, with Python-dict semantics:
an existing key keeps its position and takes the new value. -/
def objUpdate : List (String × JVal) → String → JVal → List (String × JVal)
  | [], k, v => [(k, v)]
  | (k', v') :: t, k, v =>
    if k' = k then (k', v) :: t else (k', v') :: objUpdate t k v

/-- What the recursive-descent JSON reader is currently parsing: a value, the
remaining elements of an array, or the remaining fields of an object. -/
inductive PTask where
  | pval
  | pelems (acc : List JVal)
  | pfields (acc : List (String × JVal))

/-- One fueled step of the JSON reader.  Fuel strictly decreases on every
recursive call, so the definition is structural and evaluates by `rfl`. -/
def parseStep : Nat → PTask → List Char → Option (JVal × List Char)
  | 0, _, _ => none
  | fuel + 1, .pval, cs =>
    match skipWs cs with
    | [] => none
    | c :: rest =>
      if c = 'n' then
        match rest with
        | 'u' :: 'l' :: 'l' :: r => some (.jnull, r)
        | _ => none
      else if c = 't' then
        match rest with
        | 'r' :: 'u' :: 'e' :: r => some (.jbool true, r)
        | _ => none
      else if c = 'f' then
        match rest with
        | 'a' :: 'l' :: 's' :: 'e' :: r => some (.jbool false, r)
        | _ => none
      else if c = '"' then
        match parseJString rest with
        | some (s, r) => some (.jstr s, r)
        | none => none
      else if c = '[' then
        match skipWs rest with
        | ']' :: r => some (.jarr [], r)
        | _ => parseStep fuel (.pelems []) rest
      else if c = '{' then
        match skipWs rest with
        | '}' :: r => some (.jobj [], r)
        | _ => parseStep fuel (.pfields []) rest
      else parseNum (c :: rest)
  | fuel + 1, .pelems acc, cs =>
    match parseStep fuel .pval cs with
    | none => none
    | some (v, r) =>
      match skipWs r with
      | ',' :: r2 => parseStep fuel (.pelems (v :: acc)) r2
      | ']' :: r2 => some (.jarr (v :: acc).reverse, r2)
      | _ => none
  | fuel + 1, .pfields acc, cs =>
    match skipWs cs with
    | '"' :: r =>
      match parseJString r with
      | none => none
      | some (k, r1) =>
        match skipWs r1 with
        | ':' :: r2 =>
          match parseStep fuel .pval r2 with
          | none => none
          | some (v, r3) =>
            match skipWs r3 with
            | ',' :: r4 => parseStep fuel (.pfields (objUpdate acc k v)) r4
            | '}' :: r4 => some (.jobj (objUpdate acc k v), r4)
            | _ => none
        | _ => none
    | _ => none

/-- `json.loads` on a payload string: parse one JSON value and insist that
only whitespace follows; any failure is a `json.JSONDecodeError`. -/
def jsonLoads (s : String) : Except PyExn JVal :=
  match parseStep (2 * s.toList.length + 8) .pval s.toList with
  | some (v, rest) =>
    if (skipWs rest).isEmpty then .ok v
    else .error (.jsonDecodeError "Extra data")
  | none => .error (.jsonDecodeError "Expecting value")

/-! ## The DataFrame built by `pd.DataFrame(data)` and its CSV export -/

mutual

/-- Python `repr` of a parsed JSON value, as it appears when `str` is applied
to a nested container in an object-dtype DataFrame cell. -/
def pyRepr : JVal → String
  | .jnull => "None"
  | .jbool b => if b then "True" else "False"
  | .jint n => toString n
  | .jfloat lexeme => lexeme
  | .jstr s => "'" ++ s ++ "'"
  | .jarr elems => "[" ++ String.intercalate ", " (pyReprList elems) ++ "]"
  | .jobj fields => "\x7b" ++ String.intercalate ", " (pyReprFields fields) ++ "\x7d"

/-- `repr` of each element of a Python list. -/
def pyReprList : List JVal → List String
  | [] => []
  | v :: t => pyRepr v :: pyReprList t

/-- `repr` of each `key: value` entry of a Python dict. -/
def pyReprFields : List (String × JVal) → List String
  | [] => []
  | kv :: t => ("'" ++ kv.1 ++ "': " ++ pyRepr kv.2) :: pyReprFields t

end

/-- The string a DataFrame cell contributes to `df.to_csv`: strings verbatim,
`null` as a missing value (empty), everything else by `str()`. -/
def cellToString : JVal → String
  | .jstr s => s
  | .jnull => ""
  | v => pyRepr v

/-- A CSV cell for a possibly missing value (`NaN` renders empty). -/
def cellOptStr : Option JVal → String
  | none => ""
  | some v => cellToString v

/-- Look a key up in a record, first occurrence wins (parsed objects have
unique keys). -/
def lookupKV : List (String × JVal) → String → Option JVal
  | [], _ => none
  | (k, v) :: t, key => if k = key then some v else lookupKV t key

/-- The DataFrame columns for a list of records: keys in order of first
appearance, as `pd.DataFrame` assembles them from a list of dicts. -/
def dfColumns (recs : List (List (String × JVal))) : List String :=
  recs.foldl (fun cols r => cols ++ (r.map Prod.fst).filter (fun k => !(cols.contains k))) []

/-- The DataFrame rows: one row per record, one cell per column, missing
keys becoming `NaN`. -/
def dfRows (cols : List String) (recs : List (List (String × JVal))) :
    List (List (Option JVal)) :=
  recs.map (fun r => cols.map (fun c => lookupKV r c))

/-- The DataFrame the app builds from a classified-as-tabular payload. -/
structure Df where
  columns : List String
  rows : List (List (Option JVal))

/-- Extract the records when every element of the parsed array is an object;
otherwise the `pd.DataFrame` call fails. -/
def allObjs : List JVal → Option (List (List (String × JVal)))
  | [] => some []
  | .jobj kvs :: t =>
    match allObjs t with
    | some rs => some (kvs :: rs)
    | none => none
  | _ :: _ => none

/-- `pd.DataFrame(data)` on the parsed list: succeeds on a list of dicts,
raises for mixed element types. -/
def df_of_records (vals : List JVal) : Except PyExn Df :=
  match allObjs vals with
  | some recs => .ok (Df.mk (dfColumns recs) (dfRows (dfColumns recs) recs))
  | none => .error (.valueError "DataFrame constructor not properly called")

/-- Does a CSV field need quoting (separator, quote, or line break inside)? -/
def specialChar (c : Char) : Bool := c == ',' || c == '"' || c == '\n' || c == '\r'

/-- A field is quoted exactly when it contains a special character
(`QUOTE_MINIMAL`). -/
def needsQuote (f : List Char) : Bool := f.any specialChar

/-- Double every quote character, the escaping used inside a quoted field. -/
def escapeQuotes : List Char → List Char
  | [] => []
  | c :: t => if c = '"' then '"' :: '"' :: escapeQuotes t else c :: escapeQuotes t

/-- Serialize one CSV field with minimal quoting. -/
def csvField (f : List Char) : List Char :=
  if needsQuote f then '"' :: (escapeQuotes f ++ ['"']) else f

/-- Join serialized fields with commas. -/
def joinComma : List (List Char) → List Char
  | [] => []
  | [f] => f
  | f :: g :: t => f ++ ',' :: joinComma (g :: t)

/-- Serialize one CSV row (without its line break). -/
def csvRow (fs : List (List Char)) : List Char := joinComma (fs.map csvField)

/-- Serialize rows to CSV text, one `\n`-terminated line per row. -/
def csvTextChars (rows : List (List (List Char))) : List Char :=
  (rows.map (fun r => csvRow r ++ ['\n'])).flatten

/-- `df.to_csv(index=False)`: a header line of column names followed by one
line per row, fields minimally quoted, each line ending in `\n`. -/
def to_csv (df : Df) : String :=
  String.mk (csvTextChars ((df.columns.map String.toList) ::
    df.rows.map (fun row => row.map (fun c => (cellOptStr c).toList))))

/-- The CSV reader's mode: in plain text, inside a quoted field, or just
after a closing quote (where `""` continues the field). -/
inductive CsvMode where
  | plain
  | quoted
  | afterQuote

/-- Character-level CSV reader; `field` and `row` are accumulated in
reverse, completed rows are collected in reverse in `rows`. -/
def csvParseAux : List Char → CsvMode → List Char → List (List Char) →
    List (List (List Char)) → List (List (List Char))
  | [], .plain, field, row, rows =>
    if field.isEmpty && row.isEmpty then rows.reverse
    else ((field.reverse :: row).reverse :: rows).reverse
  | [], .quoted, field, row, rows => ((field.reverse :: row).reverse :: rows).reverse
  | [], .afterQuote, field, row, rows => ((field.reverse :: row).reverse :: rows).reverse
  | c :: rest, .plain, field, row, rows =>
    if c = ',' then csvParseAux rest .plain [] (field.reverse :: row) rows
    else if c = '\n' then csvParseAux rest .plain [] [] ((field.reverse :: row).reverse :: rows)
    else if c = '"' then csvParseAux rest .quoted field row rows
    else csvParseAux rest .plain (c :: field) row rows
  | c :: rest, .quoted, field, row, rows =>
    if c = '"' then csvParseAux rest .afterQuote field row rows
    else csvParseAux rest .quoted (c :: field) row rows
  | c :: rest, .afterQuote, field, row, rows =>
    if c = '"' then csvParseAux rest .quoted ('"' :: field) row rows
    else if c = ',' then csvParseAux rest .plain [] (field.reverse :: row) rows
    else if c = '\n' then csvParseAux rest .plain [] [] ((field.reverse :: row).reverse :: rows)
    else csvParseAux rest .plain (c :: field) row rows

/-- Re-parse exported CSV text into rows of string fields. -/
def parseCsv (s : String) : List (List String) :=
  (csvParseAux s.toList .plain [] [] []).map (fun r => r.map (fun cs => String.mk cs))

/-- Re-parse exported CSV text into records: the first line is the header,
every later line is zipped against it. -/
def csvRecords (csv : String) : List (List (String × String)) :=
  match parseCsv csv with
  | [] => []
  | header :: rows => rows.map (fun row => header.zip row)

/-! ## Payload classification and rendering -/

/-- The three-way rendering decision of the results block. -/
inductive Classification where
  | tabular
  | structured
  | text

/-- The classification the execute block's rendering branch makes for a
string payload: the `startswith` guard, then `json.loads`, then the
list-of-dicts test (`data[0]` only), with `json.JSONDecodeError` falling
back to text. -/
def classify (s : String) : Classification :=
  if pyStartsWith s "[" || pyStartsWith s "\x7b" then
    match jsonLoads s with
    | .ok (.jarr (x :: _)) => if isObjV x then .tabular else .structured
    | .ok _ => .structured
    | .error _ => .text
  else .text

/-- The ambient values the results block interpolates into widgets: the
ticker, the selected tool id, and `datetime.now().strftime("%Y%m%d")`.
Classification must not depend on any of them. -/
structure RenderCtx where
  ticker : String
  selectedTool : String
  dateStr : String

/-- What the results column shows on success: a dataframe widget with its
CSV download, a JSON viewer, or a text area. -/
inductive Rendered where
  | table (df : Df) (csv : String) (fileName : String)
  | jsonView (v : JVal)
  | textView (s : String)

/-- The outcome of one press of the execute button. -/
inductive Outcome where
  | success (r : Rendered) (raw : String)
  | noData
  | failure (msg : String)

/-- The message of an outcome that is not a rendered success: the
`st.warning` text for a falsy result, or the `st.error` banner. -/
def userFacingMessage : Outcome → Option String
  | .noData => some "No data returned"
  | .failure m => some m
  | .success _ _ => none

/-- The display block of the execute handler (lines 209-243): `if result:`,
the classification condition `isinstance(result, str) and
result.startswith('[') or result.startswith('\x7b')` with its precedence —
a truthy non-string reaches `result.startswith` and raises
`AttributeError` — then `json.loads`, the DataFrame-or-JSON choice, and
the `json.JSONDecodeError` fallback to a text area.  Exceptions other than
`json.JSONDecodeError` escape as `.error`. -/
def renderPayload (ctx : RenderCtx) (result : PyVal) : Except PyExn Outcome :=
  if truthy result then
    match result with
    | .vstr s =>
      if pyStartsWith s "[" || pyStartsWith s "\x7b" then
        match jsonLoads s with
        | .error _ => .ok (.success (.textView s) s)
        | .ok data =>
          match data with
          | .jarr (d0 :: ds) =>
            if isObjV d0 then
              match df_of_records (d0 :: ds) with
              | .ok df =>
                .ok (.success (.table df (to_csv df)
                  (ctx.ticker ++ "_" ++ ctx.selectedTool ++ "_" ++ ctx.dateStr ++ ".csv")) s)
              | .error e => .error e
            else .ok (.success (.jsonView data) s)
          | _ => .ok (.success (.jsonView data) s)
      else .ok (.success (.textView s) s)
    | v => .error (.attributeError ("'" ++ pyTypeName v ++ "' object has no attribute 'startswith'"))
  else .ok .noData

/-- The classification visible in a rendering outcome, if any. -/
def outcomeClass : Except PyExn Outcome → Option Classification
  | .ok (.success (.table _ _ _) _) => some .tabular
  | .ok (.success (.jsonView _) _) => some .structured
  | .ok (.success (.textView _) _) => some .text
  | _ => none

/-! ## The dispatcher -/

/-- One invocation request, with the parameters the widgets supply for the
selected tool. -/
inductive ToolCall where
  | get_historical_stock_prices (ticker period interval : String)
  | get_stock_info (ticker : String)
  | get_yahoo_finance_news (ticker : String)
  | get_stock_actions (ticker : String)
  | get_financial_statement_call (ticker financial_type : String)
  | get_holder_info (ticker holder_type : String)
  | get_option_expiration_dates (ticker : String)
  | get_option_chain (ticker expiration_date option_type : String)
  | get_recommendations_call (ticker recommendation_type : String) (months_back : Int)

/-- The body of the execute handler's `try`: run the fetch for the selected
tool (any raised exception propagates), then display the result. -/
def dispatchTry (fetch : ToolCall → Except PyExn PyVal) (ctx : RenderCtx)
    (call : ToolCall) : Except PyExn Outcome :=
  match fetch call with
  | .error e => .error e
  | .ok r => renderPayload ctx r

/-- The whole execute handler: the `try` body with its
`except Exception as e: st.error(f"❌ Error: \x7bstr(e)\x7d")` wrapper. -/
def dispatchExecute (fetch : ToolCall → Except PyExn PyVal) (ctx : RenderCtx)
    (call : ToolCall) : Outcome :=
  match dispatchTry fetch ctx call with
  | .ok o => o
  | .error e => .failure (errMsg e)

/-! ## The tool registry -/

/-- The sidebar's static table of tools: display label to tool identifier,
defined once at module top level and never written to. -/
def tool_options : List (String × String) :=
  [("📊 Historical Stock Prices", "get_historical_stock_prices"),
   ("💼 Stock Information", "get_stock_info"),
   ("📰 Yahoo Finance News", "get_yahoo_finance_news"),
   ("💰 Stock Actions (Dividends/Splits)", "get_stock_actions"),
   ("📑 Financial Statements", "get_financial_statement"),
   ("👥 Holder Information", "get_holder_info"),
   ("📅 Option Expiration Dates", "get_option_expiration_dates"),
   ("📈 Option Chain", "get_option_chain"),
   ("⭐ Analyst Recommendations", "get_recommendations")]

/-- The static table of tool descriptions, keyed by tool identifier,
likewise defined once at module top level and never written to. -/
def tool_descriptions : List (String × String) :=
  [("get_historical_stock_prices", "Get historical OHLCV (Open, High, Low, Close, Volume) data for any stock with customizable time periods and intervals."),
   ("get_stock_info", "Get comprehensive stock information including current price, market cap, financial metrics, company details, and more."),
   ("get_yahoo_finance_news", "Fetch the latest news articles related to a specific stock from Yahoo Finance."),
   ("get_stock_actions", "Retrieve historical dividend payments and stock split information."),
   ("get_financial_statement", "Access detailed financial statements including income statements, balance sheets, and cash flow statements (annual or quarterly)."),
   ("get_holder_info", "Get information about major holders, institutional investors, mutual funds, and insider transactions."),
   ("get_option_expiration_dates", "Fetch all available options expiration dates for a given stock."),
   ("get_option_chain", "Get detailed option chain data for calls or puts with a specific expiration date."),
   ("get_recommendations", "View analyst recommendations, upgrades, and downgrades for stocks.")]

/-- The nine tool identifiers, in registry order. -/
def registryIds : List String :=
  ["get_historical_stock_prices", "get_stock_info", "get_yahoo_finance_news",
   "get_stock_actions", "get_financial_statement", "get_holder_info",
   "get_option_expiration_dates", "get_option_chain", "get_recommendations"]

/-! ## The server-side operations behind the dispatcher

The fetch operations are imported `from server import ...`; `server.py` is
not part of the sources here, so the two operations the claims exercise are
modelled from the spec. -/

/-- Modelled from the spec: `get_financial_statement` lives in `server.py`,
which is imported by the app but missing from the sources.  The spec calls
every exposed operation "a parameter-validated pass-through to an external
data API" and its scenario table states that a financial-statement request
with an unset ticker (empty string) yields a ValidationError before any
network call is attempted.  `provider` stands for the external Yahoo
Finance round-trip; the first component of the result is the list of
provider requests actually issued. -/
def get_financial_statement (provider : String → String → Except PyExn PyVal)
    (ticker financial_type : String) :
    List (String × String) × Except PyExn PyVal :=
  if ticker = "" then
    ([], .error (.validationError "ticker must be a non-empty string"))
  else
    ([(ticker, financial_type)], provider ticker financial_type)

/-- Modelled from the spec: `get_recommendations` lives in `server.py`,
which is imported by the app but missing from the sources.  The spec's
scenario table states that a recommendations request with `months_back = 0`
(below the declared minimum of 1, the widget's `min_value`) yields a
ValidationError reported without invoking the provider.  `provider` stands
for the external round-trip; the first component of the result is the list
of provider requests actually issued. -/
def get_recommendations
    (provider : String → String → Int → Except PyExn PyVal)
    (ticker recommendation_type : String) (months_back : Int) :
    List (String × String × Int) × Except PyExn PyVal :=
  if months_back < 1 then
    ([], .error (.validationError "months_back must be at least 1"))
  else
    ([(ticker, recommendation_type, months_back)],
     provider ticker recommendation_type months_back)

/-- The execute handler for the financial-statement tool, with the provider
requests issued alongside the user-visible outcome. -/
def dispatchFinancialStatement (provider : String → String → Except PyExn PyVal)
    (ctx : RenderCtx) (ticker financial_type : String) :
    List (String × String) × Outcome :=
  let fetched := get_financial_statement provider ticker financial_type
  (fetched.1,
   dispatchExecute (fun _ => fetched.2) ctx
     (.get_financial_statement_call ticker financial_type))

/-- The execute handler for the recommendations tool, with the provider
requests issued alongside the user-visible outcome. -/
def dispatchRecommendations
    (provider : String → String → Int → Except PyExn PyVal)
    (ctx : RenderCtx) (ticker recommendation_type : String) (months_back : Int) :
    List (String × String × Int) × Outcome :=
  let fetched := get_recommendations provider ticker recommendation_type months_back
  (fetched.1,
   dispatchExecute (fun _ => fetched.2) ctx
     (.get_recommendations_call ticker recommendation_type months_back))

/-! ## The `run_async` event-loop bridge -/

/-- The asyncio state `run_async` touches: the next unused loop identity,
the identities of loops created and not yet closed, and the loop installed
by `set_event_loop`. -/
structure LoopState where
  nextId : Nat
  openLoops : List Nat
  current : Option Nat

/-- The observable steps of one `run_async` call. -/
inductive AsyncEvent where
  | newLoop (id : Nat)
  | setLoop (id : Nat)
  | runUntilComplete (id : Nat)
  | closeLoop (id : Nat)

/-- Everything one `run_async` call produces: the asyncio state afterwards,
the trace of steps taken, and the coroutine's value or exception. -/
structure AsyncRun where
  finalState : LoopState
  events : List AsyncEvent
  outcome : Except PyExn PyVal

/-- `run_async`: `asyncio.new_event_loop()`, `asyncio.set_event_loop(loop)`,
`loop.run_until_complete(coro)` inside `try`, and `loop.close()` in the
`finally` — so the close happens whether the coroutine returns or raises,
and the returned value or exception is the coroutine's own. -/
def run_async (st : LoopState) (coro : Except PyExn PyVal) : AsyncRun :=
  let lid := st.nextId
  let afterNew : LoopState := ⟨st.nextId + 1, lid :: st.openLoops, st.current⟩
  let afterSet : LoopState := ⟨afterNew.nextId, afterNew.openLoops, some lid⟩
  let afterClose : LoopState :=
    ⟨afterSet.nextId, afterSet.openLoops.erase lid, afterSet.current⟩
  ⟨afterClose,
   [.newLoop lid, .setLoop lid, .runUntilComplete lid, .closeLoop lid],
   coro⟩

/-- The identity of the loop a `run_async` call created. -/
def usedLoopId (r : AsyncRun) : Nat :=
  match r.events with
  | .newLoop i :: _ => i
  | _ => 0

/-! ## The spec's classification rule, for comparison with the code -/

/-- Is a parsed value a non-empty array of uniform key-value records (all
elements objects, all with the same keys)? -/
def isUniformRecordArray : JVal → Bool
  | .jarr (x :: xs) => isObjV x && xs.all (fun y => isObjV y && objKeys y == objKeys x)
  | _ => false

/-- The classification rule exactly as the spec words it, for comparison
with `classify`: any JSON-like (parseable) payload that is a non-empty
uniform-record array is tabular, any other JSON-like payload is
structured, anything else is text. -/
def specClassify (s : String) : Classification :=
  match jsonLoads s with
  | .ok v => if isUniformRecordArray v then .tabular else .structured
  | .error _ => .text

/-- The three-way classification rule as amended: only a payload beginning
with `[` or `\x7b` is inspected; if it parses as JSON and is a non-empty
array whose first element is an object it is tabular, if it parses as any
other JSON value it is structured, and every other payload — including
JSON-parseable strings without such a leading bracket and bracket-led
strings that fail to parse — is plain text. -/
def specClassifyAmended (s : String) : Classification :=
  if pyStartsWith s "[" || pyStartsWith s "\x7b" then
    match jsonLoads s with
    | .error _ => .text
    | .ok v =>
      match v with
      | .jarr elems =>
        match elems with
        | [] => .structured
        | x :: _ => if isObjV x then .tabular else .structured
      | _ => .structured
  else .text

/-! ## Comparing re-parsed CSV records with the original payload -/

/-- Does a re-parsed CSV cell (a string) denote the original value, ignoring
type coercion of numeric-looking strings?  A string value must read back
verbatim, a numeric value must read back as its numeral; no string cell
denotes a null, boolean, array, or object. -/
def cellMatches (v : JVal) (s : String) : Bool :=
  match v with
  | .jstr t => t == s
  | .jint n => toString n == s
  | .jfloat lexeme => lexeme == s
  | _ => false

/-- Does a re-parsed CSV record agree with an original record, key for key
and cell for cell, ignoring numeric coercion? -/
def recordMatches : List (String × JVal) → List (String × String) → Bool
  | [], [] => true
  | kv :: t, p :: t' => kv.1 == p.1 && cellMatches kv.2 p.2 && recordMatches t t'
  | _, _ => false

/-- Do the re-parsed CSV records agree with the original records, record for
record, ignoring numeric coercion? -/
def recordsMatch : List (List (String × JVal)) → List (List (String × String)) → Bool
  | [], [] => true
  | r :: rs, p :: ps => recordMatches r p && recordsMatch rs ps
  | _, _ => false

/-- A cell the CSV export keeps faithfully up to numeric coercion: a string
or a Python `int`. -/
def scalarCell : JVal → Bool
  | .jstr _ => true
  | .jint _ => true
  | _ => false

/-! ## Claims -/

/-- Claim C7: the Tool Registry is an immutable mapping populated once at
process start containing exactly nine entries — historical prices, stock
info, news, corporate actions, financial statements, holder info, option
expiration dates, option chain, analyst recommendations — and no operation
of the program mutates it.  `tool_options` and `tool_descriptions` are
top-level constants of the embedding, so no operation can mutate them; the
theorem pins down their nine identifiers, their agreement with each other,
and the distinctness of labels and identifiers. -/
theorem c7_registry_is_static_table_of_nine :
    tool_options.map Prod.snd = registryIds ∧
    tool_options.length = 9 ∧
    tool_descriptions.map Prod.fst = registryIds ∧
    tool_descriptions.length = 9 ∧
    registryIds.Nodup ∧
    (tool_options.map Prod.fst).Nodup := by
  refine ⟨rfl, rfl, rfl, rfl, ?_, ?_⟩ <;> decide

/-- Claim C5: a financial-statement request with an empty ticker yields a
ValidationError — surfaced to the user as the error banner — and the
provider is never contacted (the request log stays empty). -/
theorem c5_empty_ticker_validation_before_network
    (provider : String → String → Except PyExn PyVal) (ctx : RenderCtx)
    (financial_type : String) :
    dispatchFinancialStatement provider ctx "" financial_type =
      ([], .failure (errMsg (.validationError "ticker must be a non-empty string"))) := rfl

/-- Claim C6: a recommendations request with `months_back = 0`, below the
declared minimum of 1, yields a ValidationError reported to the user and
the provider fetch is never invoked (the request log stays empty). -/
theorem c6_months_back_zero_validation_before_network
    (provider : String → String → Int → Except PyExn PyVal) (ctx : RenderCtx)
    (ticker recommendation_type : String) :
    dispatchRecommendations provider ctx ticker recommendation_type 0 =
      ([], .failure (errMsg (.validationError "months_back must be at least 1"))) := rfl

/-- Claim C9: every invocation bridges the asynchronous fetch with a fresh
execution context: `run_async` creates a new event loop (one no earlier
call left open), runs the one operation to completion, and closes the loop
on every path — the trace ends in `closeLoop` and the open-loop set is
restored whether the coroutine returned a value or raised — and a second
invocation uses a different loop, so no event loop is shared between
invocations. -/
theorem c9_run_async_fresh_loop_closed_on_every_path (st : LoopState)
    (coro coro2 : Except PyExn PyVal)
    (hinv : ∀ l ∈ st.openLoops, l < st.nextId) :
    (run_async st coro).outcome = coro ∧
    (run_async st coro).events =
      [.newLoop st.nextId, .setLoop st.nextId, .runUntilComplete st.nextId,
       .closeLoop st.nextId] ∧
    st.nextId ∉ st.openLoops ∧
    (run_async st coro).finalState.openLoops = st.openLoops ∧
    (run_async st coro).finalState.nextId = st.nextId + 1 ∧
    usedLoopId (run_async (run_async st coro).finalState coro2) ≠
      usedLoopId (run_async st coro) := by
  refine ⟨rfl, rfl, ?_, ?_, rfl, ?_⟩
  · intro hmem
    exact absurd (hinv _ hmem) (lt_irrefl _)
  · show (st.nextId :: st.openLoops).erase st.nextId = st.openLoops
    exact List.erase_cons_head ..
  · show st.nextId + 1 ≠ st.nextId
    omega

/-- Witness for C9 at a concrete asyncio state and a raising coroutine. -/
theorem c9_witness :
    (run_async ⟨3, [0, 2], some 1⟩ (.error (.providerError "boom"))).outcome
        = .error (.providerError "boom") ∧
    (run_async ⟨3, [0, 2], some 1⟩ (.error (.providerError "boom"))).events =
      [.newLoop 3, .setLoop 3, .runUntilComplete 3, .closeLoop 3] ∧
    3 ∉ [0, 2] ∧
    (run_async ⟨3, [0, 2], some 1⟩
        (.error (.providerError "boom"))).finalState.openLoops = [0, 2] ∧
    (run_async ⟨3, [0, 2], some 1⟩
        (.error (.providerError "boom"))).finalState.nextId = 3 + 1 ∧
    usedLoopId (run_async (run_async ⟨3, [0, 2], some 1⟩
        (.error (.providerError "boom"))).finalState (.ok (.vstr "ok"))) ≠
      usedLoopId (run_async ⟨3, [0, 2], some 1⟩ (.error (.providerError "boom"))) :=
  c9_run_async_fresh_loop_closed_on_every_path ⟨3, [0, 2], some 1⟩
    (.error (.providerError "boom")) (.ok (.vstr "ok")) (by decide)

/-- Claim C1: with the required parameters present and valid, the execute
handler never lets an exception escape: every run ends in a rendered
success or in a user-facing message (the warning for a falsy result or the
error banner), and a provider error or network failure raised by the fetch
is converted into the Failure banner carrying the exception's text. -/
theorem c1_invoke_never_raises_uncaught (fetch : ToolCall → Except PyExn PyVal)
    (ctx : RenderCtx) (call : ToolCall) :
    ((∃ r raw, dispatchExecute fetch ctx call = .success r raw) ∨
      (∃ m, userFacingMessage (dispatchExecute fetch ctx call) = some m)) ∧
    (∀ e, fetch call = .error e →
      dispatchExecute fetch ctx call = .failure (errMsg e)) := by
  constructor
  · cases h : dispatchExecute fetch ctx call with
    | success r raw => exact Or.inl ⟨r, raw, rfl⟩
    | noData => exact Or.inr ⟨"No data returned", rfl⟩
    | failure m => exact Or.inr ⟨m, rfl⟩
  · intro e he
    simp [dispatchExecute, dispatchTry, he]

/-- Witness for C1: a provider failure is converted to the error banner. -/
theorem c1_witness :
    dispatchExecute (fun _ => .error (.providerError "connection reset by peer"))
        ⟨"AAPL", "get_stock_info", "20261012"⟩ (.get_stock_info "AAPL") =
      .failure (errMsg (.providerError "connection reset by peer")) :=
  (c1_invoke_never_raises_uncaught _ _ _).2 _ rfl

/-- Helper: a rendering that reaches a success outcome can only have started
from a string payload — every truthy non-string raises before rendering. -/
theorem renderPayload_success_is_string (ctx : RenderCtx) (v : PyVal)
    (r : Rendered) (raw : String)
    (h : renderPayload ctx v = .ok (.success r raw)) : ∃ s, v = .vstr s := by
  cases v with
  | vstr s => exact ⟨s, rfl⟩
  | vnone => simp [renderPayload, truthy] at h
  | vbool b =>
    cases b <;> simp [renderPayload, truthy] at h
  | vint n =>
    unfold renderPayload at h
    split at h <;> simp_all
  | vlist xs =>
    unfold renderPayload at h
    split at h <;> simp_all
  | vdict kvs =>
    unfold renderPayload at h
    split at h <;> simp_all

/-- Claim C10: the classification condition binds `isinstance` only to the
first `startswith`, so a truthy non-string payload evaluates
`result.startswith('\x7b')`, raises `AttributeError`, and the outer handler
turns it into the Failure banner; consequently only string payloads are
ever rendered as success output. -/
theorem c10_nonstring_payload_raises_attribute_error (ctx : RenderCtx)
    (call : ToolCall) :
    (∀ (fetch : ToolCall → Except PyExn PyVal) (v : PyVal),
      fetch call = .ok v → truthy v = true → isStr v = false →
      dispatchExecute fetch ctx call =
        .failure (errMsg (.attributeError
          ("'" ++ pyTypeName v ++ "' object has no attribute 'startswith'")))) ∧
    (∀ (fetch : ToolCall → Except PyExn PyVal) (r : Rendered) (raw : String),
      dispatchExecute fetch ctx call = .success r raw →
      ∃ s, fetch call = .ok (.vstr s)) := by
  constructor
  · intro fetch v hv ht hs
    have hrender : renderPayload ctx v =
        .error (.attributeError
          ("'" ++ pyTypeName v ++ "' object has no attribute 'startswith'")) := by
      cases v <;> simp_all [renderPayload, truthy, isStr]
    simp [dispatchExecute, dispatchTry, hv, hrender]
  · intro fetch r raw h
    cases hf : fetch call with
    | error e => simp [dispatchExecute, dispatchTry, hf] at h
    | ok v =>
      cases hr : renderPayload ctx v with
      | error e => simp [dispatchExecute, dispatchTry, hf, hr] at h
      | ok o =>
        have ho : o = .success r raw := by
          simpa [dispatchExecute, dispatchTry, hf, hr] using h
        obtain ⟨s, hv⟩ := renderPayload_success_is_string ctx v r raw (ho ▸ hr)
        exact ⟨s, by rw [← hv]⟩

/-- Witness for C10: a list payload ends in the AttributeError banner. -/
theorem c10_witness :
    dispatchExecute (fun _ => .ok (.vlist [.vint 1]))
        ⟨"AAPL", "get_yahoo_finance_news", "20261012"⟩
        (.get_yahoo_finance_news "AAPL") =
      .failure (errMsg (.attributeError
        ("'" ++ pyTypeName (.vlist [.vint 1]) ++
          "' object has no attribute 'startswith'"))) :=
  (c10_nonstring_payload_raises_attribute_error _ _).1
    (fun _ => .ok (.vlist [.vint 1])) (.vlist [.vint 1]) rfl rfl rfl

/-- Claim C8: a string payload whose leading bracket sends it into
`json.loads` and which then fails to parse is rendered as plain text; the
`json.JSONDecodeError` is caught by the inner handler, so the parse
failure is neither fatal nor surfaced as an error. -/
theorem c8_parse_failure_falls_back_to_text (ctx : RenderCtx) (s : String)
    (e : PyExn)
    (hpre : (pyStartsWith s "[" || pyStartsWith s "\x7b") = true)
    (hparse : jsonLoads s = .error e) :
    renderPayload ctx (.vstr s) = .ok (.success (.textView s) s) := by
  have hne : (s == "") = false := by
    cases h0 : s == ""
    · rfl
    · have : s = "" := eq_of_beq h0
      subst this
      simp [pyStartsWith, listStarts] at hpre
  simp [renderPayload, truthy, hne, hpre, hparse]

/-- Witness for C8 on an unparseable brace-led payload. -/
theorem c8_witness :
    renderPayload ⟨"AAPL", "get_yahoo_finance_news", "20261012"⟩
        (.vstr "\x7boops") =
      .ok (.success (.textView "\x7boops") "\x7boops") :=
  c8_parse_failure_falls_back_to_text _ "\x7boops"
    (.jsonDecodeError "Expecting value") rfl rfl

/-- Claim C3: payload classification is a pure, stateless function of the
payload alone: the classification visible in the rendering outcome is
identical across any two invocations on the same payload, whatever the
ambient state (ticker, selected tool, current date) of either invocation. -/
theorem c3_classification_stateless (ctx1 ctx2 : RenderCtx) (v : PyVal) :
    outcomeClass (renderPayload ctx1 v) = outcomeClass (renderPayload ctx2 v) := by
  cases v <;> unfold renderPayload <;> (repeat' split) <;> rfl

/-- Counterexample to Claim C2 as stated.  The payload `"5"` is JSON-like
(it parses, to the number 5) and is not a uniform-record array, so the
spec's rule classifies it structured; the code's `startswith` guard never
parses it and renders it as plain text.  The payload `"[\x7b\"a\": 1\x7d, 5]"`
is JSON-like and not a uniform-record array (its second element is not a
record), so the spec's rule classifies it structured; the code inspects
only `data[0]` and classifies it tabular. -/
theorem c2_counterexample :
    (specClassify "5" = .structured ∧ classify "5" = .text) ∧
    (specClassify "[\x7b\"a\": 1\x7d, 5]" = .structured ∧
      classify "[\x7b\"a\": 1\x7d, 5]" = .tabular) :=
  ⟨⟨rfl, rfl⟩, rfl, rfl⟩

/-- Claim C2 (amended): payload classification is total and three-way, but
only payloads beginning with `[` or `\x7b` are inspected: such a payload
that parses as JSON and is a non-empty array whose first element is an
object is tabular (uniformity of later elements is not checked), such a
payload that parses as any other JSON value is structured, and every other
payload — JSON-parseable strings without a leading bracket included — is
plain text. -/
theorem c2_classification_three_way_amended (s : String) :
    classify s = specClassifyAmended s := by
  unfold classify specClassifyAmended
  cases hpre : (pyStartsWith s "[" || pyStartsWith s "\x7b") with
  | false => simp
  | true =>
    simp only
    cases hj : jsonLoads s with
    | error e => rfl
    | ok v =>
      cases v with
      | jarr elems => cases elems <;> rfl
      | jnull => rfl
      | jbool b => rfl
      | jint n => rfl
      | jfloat lexeme => rfl
      | jstr t => rfl
      | jobj fields => rfl

/-! ## CSV round-trip lemmas -/

/-- A character that fails `specialChar` is none of the four delimiters. -/
theorem specialChar_false_elim (c : Char) (h : specialChar c = false) :
    c ≠ ',' ∧ c ≠ '"' ∧ c ≠ '\n' ∧ c ≠ '\r' := by
  unfold specialChar at h
  simp only [Bool.or_eq_false_iff, beq_eq_false_iff_ne, ne_eq] at h
  exact ⟨h.1.1.1, h.1.1.2, h.1.2, h.2⟩

/-- Plain-mode consumption of an ordinary field body: every non-special
character lands on the field accumulator. -/
theorem csvParseAux_plain_chars (f : List Char)
    (hf : ∀ c ∈ f, specialChar c = false) :
    ∀ (rest acc : List Char) (row : List (List Char))
      (rows : List (List (List Char))),
      csvParseAux (f ++ rest) .plain acc row rows
        = csvParseAux rest .plain (f.reverse ++ acc) row rows := by
  induction f with
  | nil => intro rest acc row rows; simp
  | cons c t ih =>
    intro rest acc row rows
    obtain ⟨h1, h2, h3, _⟩ :=
      specialChar_false_elim c (hf c (List.mem_cons_self c t))
    have hct : ∀ x ∈ t, specialChar x = false :=
      fun x hx => hf x (List.mem_cons_of_mem _ hx)
    have step : csvParseAux ((c :: t) ++ rest) .plain acc row rows
        = csvParseAux (t ++ rest) .plain (c :: acc) row rows := by
      simp [csvParseAux, h1, h2, h3]
    rw [step, ih hct]
    simp

/-- Quoted-mode consumption of an escaped field body followed by the closing
quote: every character, quotes doubled, lands on the field accumulator, and
the reader ends just after the closing quote. -/
theorem csvParseAux_quoted_chars (f : List Char) :
    ∀ (rest acc : List Char) (row : List (List Char))
      (rows : List (List (List Char))),
      csvParseAux (escapeQuotes f ++ '"' :: rest) .quoted acc row rows
        = csvParseAux rest .afterQuote (f.reverse ++ acc) row rows := by
  induction f with
  | nil =>
    intro rest acc row rows
    simp [escapeQuotes, csvParseAux]
  | cons c t ih =>
    intro rest acc row rows
    by_cases hc : c = '"'
    · subst hc
      have he : escapeQuotes ('"' :: t) = '"' :: '"' :: escapeQuotes t := by
        simp [escapeQuotes]
      rw [he]
      have step1 : csvParseAux (('"' :: '"' :: escapeQuotes t) ++ '"' :: rest)
            .quoted acc row rows
          = csvParseAux (escapeQuotes t ++ '"' :: rest) .quoted ('"' :: acc)
            row rows := by
        simp [csvParseAux]
      rw [step1, ih rest ('"' :: acc) row rows]
      simp
    · have he : escapeQuotes (c :: t) = c :: escapeQuotes t := by
        simp [escapeQuotes, hc]
      rw [he]
      have step1 : csvParseAux ((c :: escapeQuotes t) ++ '"' :: rest)
            .quoted acc row rows
          = csvParseAux (escapeQuotes t ++ '"' :: rest) .quoted (c :: acc)
            row rows := by
        simp [csvParseAux, hc]
      rw [step1, ih rest (c :: acc) row rows]
      simp

/-- A serialized field followed by a comma is read back verbatim as one
completed field. -/
theorem csvField_comma (f : List Char) (rest : List Char)
    (row : List (List Char)) (rows : List (List (List Char))) :
    csvParseAux (csvField f ++ ',' :: rest) .plain [] row rows
      = csvParseAux rest .plain [] (f :: row) rows := by
  unfold csvField
  by_cases hq : needsQuote f
  · rw [if_pos hq]
    have hsplit : ('"' :: (escapeQuotes f ++ ['"'])) ++ ',' :: rest
        = '"' :: (escapeQuotes f ++ '"' :: ',' :: rest) := by simp
    rw [hsplit]
    have step0 : csvParseAux ('"' :: (escapeQuotes f ++ '"' :: ',' :: rest))
          .plain [] row rows
        = csvParseAux (escapeQuotes f ++ '"' :: ',' :: rest) .quoted [] row rows := by
      simp [csvParseAux]
    rw [step0, csvParseAux_quoted_chars f (',' :: rest) [] row rows]
    have step1 : csvParseAux (',' :: rest) .afterQuote (f.reverse ++ []) row rows
        = csvParseAux rest .plain [] ((f.reverse ++ []).reverse :: row) rows := by
      simp [csvParseAux]
    rw [step1]
    simp
  · rw [if_neg hq]
    have hf : ∀ c ∈ f, specialChar c = false := by
      intro c hc
      by_contra hcc
      exact hq (List.any_eq_true.mpr ⟨c, hc, by simpa using hcc⟩)
    rw [show f ++ ',' :: rest = f ++ ',' :: rest from rfl,
      csvParseAux_plain_chars f hf (',' :: rest) [] row rows]
    have step1 : csvParseAux (',' :: rest) .plain (f.reverse ++ []) row rows
        = csvParseAux rest .plain [] ((f.reverse ++ []).reverse :: row) rows := by
      simp [csvParseAux]
    rw [step1]
    simp

/-- A serialized field followed by a line break is read back verbatim as the
last field of a completed row. -/
theorem csvField_newline (f : List Char) (rest : List Char)
    (row : List (List Char)) (rows : List (List (List Char))) :
    csvParseAux (csvField f ++ '\n' :: rest) .plain [] row rows
      = csvParseAux rest .plain [] [] ((f :: row).reverse :: rows) := by
  unfold csvField
  by_cases hq : needsQuote f
  · rw [if_pos hq]
    have hsplit : ('"' :: (escapeQuotes f ++ ['"'])) ++ '\n' :: rest
        = '"' :: (escapeQuotes f ++ '"' :: '\n' :: rest) := by simp
    rw [hsplit]
    have step0 : csvParseAux ('"' :: (escapeQuotes f ++ '"' :: '\n' :: rest))
          .plain [] row rows
        = csvParseAux (escapeQuotes f ++ '"' :: '\n' :: rest) .quoted [] row rows := by
      simp [csvParseAux]
    rw [step0, csvParseAux_quoted_chars f ('\n' :: rest) [] row rows]
    have step1 : csvParseAux ('\n' :: rest) .afterQuote (f.reverse ++ []) row rows
        = csvParseAux rest .plain [] []
            (((f.reverse ++ []).reverse :: row).reverse :: rows) := by
      simp [csvParseAux]
    rw [step1]
    simp
  · rw [if_neg hq]
    have hf : ∀ c ∈ f, specialChar c = false := by
      intro c hc
      by_contra hcc
      exact hq (List.any_eq_true.mpr ⟨c, hc, by simpa using hcc⟩)
    rw [csvParseAux_plain_chars f hf ('\n' :: rest) [] row rows]
    have step1 : csvParseAux ('\n' :: rest) .plain (f.reverse ++ []) row rows
        = csvParseAux rest .plain [] []
            (((f.reverse ++ []).reverse :: row).reverse :: rows) := by
      simp [csvParseAux]
    rw [step1]
    simp

/-- A serialized row followed by its line break is read back as exactly its
fields, appended to whatever the row accumulator already held. -/
theorem csvRow_newline (fs : List (List Char)) (hfs : fs ≠ []) :
    ∀ (rest : List Char) (row : List (List Char))
      (rows : List (List (List Char))),
      csvParseAux (csvRow fs ++ '\n' :: rest) .plain [] row rows
        = csvParseAux rest .plain [] [] ((row.reverse ++ fs) :: rows) := by
  induction fs with
  | nil => cases hfs rfl
  | cons f t ih =>
    intro rest row rows
    cases t with
    | nil =>
      have hrow : csvRow [f] = csvField f := by
        simp [csvRow, joinComma]
      rw [hrow, csvField_newline f rest row rows]
      simp
    | cons g t2 =>
      have hrow : csvRow (f :: g :: t2) = csvField f ++ ',' :: csvRow (g :: t2) := by
        simp [csvRow, joinComma]
      rw [hrow]
      have hassoc : (csvField f ++ ',' :: csvRow (g :: t2)) ++ '\n' :: rest
          = csvField f ++ ',' :: (csvRow (g :: t2) ++ '\n' :: rest) := by simp
      rw [hassoc, csvField_comma f (csvRow (g :: t2) ++ '\n' :: rest) row rows,
        ih (by simp) rest (f :: row) rows]
      simp

/-- Reading serialized CSV text appends the serialized rows, in order, to
whatever complete rows were already accumulated. -/
theorem csvText_parse (rows : List (List (List Char)))
    (h : ∀ r ∈ rows, r ≠ []) :
    ∀ acc, csvParseAux (csvTextChars rows) .plain [] [] acc
      = acc.reverse ++ rows := by
  induction rows with
  | nil => intro acc; simp [csvTextChars, csvParseAux]
  | cons r t ih =>
    intro acc
    have hr : r ≠ [] := h r (List.mem_cons_self r t)
    have ht : ∀ x ∈ t, x ≠ [] := fun x hx => h x (List.mem_cons_of_mem _ hx)
    have htext : csvTextChars (r :: t) = csvRow r ++ '\n' :: csvTextChars t := by
      simp [csvTextChars]
    rw [htext, csvRow_newline r hr (csvTextChars t) [] acc]
    have : ([] : List (List Char)).reverse ++ r = r := by simp
    rw [this, ih ht (r :: acc)]
    simp

/-- `String.mk` undoes `String.toList`. -/
theorem mk_toList (s : String) : String.mk s.toList = s := rfl

/-- Parsing the serialization of non-degenerate string rows returns exactly
those rows. -/
theorem parseCsv_csvText (rows : List (List String))
    (h : ∀ r ∈ rows, r ≠ []) :
    parseCsv (String.mk (csvTextChars (rows.map (fun r => r.map String.toList))))
      = rows := by
  unfold parseCsv
  have hch : ∀ r ∈ rows.map (fun r => r.map String.toList), r ≠ [] := by
    intro r hrm
    obtain ⟨r0, hr0, rfl⟩ := List.mem_map.mp hrm
    simpa using h r0 hr0
  rw [show String.toList (String.mk
        (csvTextChars (rows.map (fun r => r.map String.toList))))
      = csvTextChars (rows.map (fun r => r.map String.toList)) from rfl]
  rw [csvText_parse _ hch []]
  simp only [List.reverse_nil, List.nil_append]
  rw [List.map_map]
  have hpt : ∀ r : List String,
      ((fun r : List (List Char) => r.map (fun cs => String.mk cs)) ∘
        (fun r : List String => r.map String.toList)) r = id r := by
    intro r
    simp only [Function.comp_apply, List.map_map, id]
    have hcomp : ((fun cs => String.mk cs) ∘ String.toList) = fun s : String => s := by
      funext s
      rfl
    rw [hcomp, List.map_id']
  rw [List.map_congr_left (fun r _ => hpt r), List.map_id]

/-- Wrapping records in `jobj` and extracting them back is the identity. -/
theorem allObjs_map_jobj (recs : List (List (String × JVal))) :
    allObjs (recs.map JVal.jobj) = some recs := by
  induction recs with
  | nil => rfl
  | cons r t ih => simp [allObjs, ih]

/-- Looking each of a record's own keys up, in order, returns its own values
when the keys are distinct. -/
theorem lookup_own_keys (r : List (String × JVal))
    (hnd : (r.map Prod.fst).Nodup) :
    (r.map Prod.fst).map (lookupKV r) = r.map (fun kv => some kv.2) := by
  induction r with
  | nil => rfl
  | cons kv t ih =>
    obtain ⟨k, v⟩ := kv
    simp only [List.map_cons] at hnd ⊢
    rw [List.nodup_cons] at hnd
    obtain ⟨hk, hnt⟩ := hnd
    have hhead : lookupKV ((k, v) :: t) k = some v := by
      simp [lookupKV]
    have htail : (t.map Prod.fst).map (lookupKV ((k, v) :: t))
        = (t.map Prod.fst).map (lookupKV t) := by
      apply List.map_congr_left
      intro x hx
      have hne : k ≠ x := fun he => hk (he ▸ hx)
      simp [lookupKV, hne]
    rw [hhead, htail, ih hnt]

/-- When every record has exactly the key list `K`, the column assembly of
`pd.DataFrame` yields `K`. -/
theorem dfColumns_uniform (recs : List (List (String × JVal))) (K : List String)
    (hne : recs ≠ []) (hkeys : ∀ r ∈ recs, r.map Prod.fst = K) :
    dfColumns recs = K := by
  have hstay : ∀ (t : List (List (String × JVal))),
      (∀ r ∈ t, r.map Prod.fst = K) →
      t.foldl (fun cols r =>
        cols ++ (r.map Prod.fst).filter (fun k => !(cols.contains k))) K = K := by
    intro t
    induction t with
    | nil => intro _; rfl
    | cons r t2 ih =>
      intro hh
      have hr : r.map Prod.fst = K := hh r (List.mem_cons_self r t2)
      have habsorb : K ++ (r.map Prod.fst).filter (fun k => !(K.contains k)) = K := by
        rw [hr]
        have : K.filter (fun k => !(K.contains k)) = [] := by
          rw [List.filter_eq_nil_iff]
          intro a ha
          simp [List.contains, List.elem_iff, ha]
        rw [this, List.append_nil]
      rw [List.foldl_cons, habsorb]
      exact ih (fun x hx => hh x (List.mem_cons_of_mem _ hx))
  cases recs with
  | nil => cases hne rfl
  | cons r0 t =>
    have h0 : r0.map Prod.fst = K := hkeys r0 (List.mem_cons_self r0 t)
    have hfirst : ([] : List String) ++
        (r0.map Prod.fst).filter (fun k => !(([] : List String).contains k)) = K := by
      rw [h0]
      simp
    unfold dfColumns
    rw [List.foldl_cons, hfirst]
    exact hstay t (fun x hx => hkeys x (List.mem_cons_of_mem _ hx))

/-- When every record has exactly the distinct key list `K`, the DataFrame's
rows are the records' own values. -/
theorem dfRows_uniform (recs : List (List (String × JVal))) (K : List String)
    (hkeys : ∀ r ∈ recs, r.map Prod.fst = K) (hnd : K.Nodup) :
    dfRows K recs = recs.map (fun r => r.map (fun kv => some kv.2)) := by
  unfold dfRows
  apply List.map_congr_left
  intro r hr
  have h1 : r.map Prod.fst = K := hkeys r hr
  rw [← h1]
  exact lookup_own_keys r (h1 ▸ hnd)

/-- Re-parsing the CSV export of a uniform-key DataFrame returns the header
and every cell rendered to its string. -/
theorem parseCsv_to_csv_uniform (recs : List (List (String × JVal)))
    (K : List String) (hKne : K ≠ []) (hnd : K.Nodup)
    (hkeys : ∀ r ∈ recs, r.map Prod.fst = K) :
    parseCsv (to_csv (Df.mk K (dfRows K recs)))
      = K :: recs.map (fun r => r.map (fun kv => cellToString kv.2)) := by
  have hrows := dfRows_uniform recs K hkeys hnd
  have hcells : (dfRows K recs).map (fun row => row.map (fun c => (cellOptStr c).toList))
      = (recs.map (fun r => r.map (fun kv => cellToString kv.2))).map
          (fun r => r.map String.toList) := by
    rw [hrows, List.map_map, List.map_map]
    apply List.map_congr_left
    intro r _
    simp only [Function.comp_apply]
    rw [List.map_map, List.map_map]
    rfl
  have hform : to_csv (Df.mk K (dfRows K recs))
      = String.mk (csvTextChars
          ((K :: recs.map (fun r => r.map (fun kv => cellToString kv.2))).map
            (fun r => r.map String.toList))) := by
    unfold to_csv
    rw [show (Df.mk K (dfRows K recs)).rows = dfRows K recs from rfl,
      show (Df.mk K (dfRows K recs)).columns = K from rfl, hcells]
    rw [List.map_cons]
  rw [hform]
  apply parseCsv_csvText
  intro r hrm
  rcases List.mem_cons.mp hrm with rfl | hr2
  · exact hKne
  · obtain ⟨r0, hr0, rfl⟩ := List.mem_map.mp hr2
    intro hmapnil
    apply hKne
    rw [← hkeys r0 hr0]
    rw [List.map_eq_nil_iff.mp hmapnil]
    rfl

/-- Re-parsing the CSV export of a uniform-key DataFrame and zipping each
data line against the header recovers the records, each value rendered to
its string. -/
theorem csvRecords_to_csv_uniform (recs : List (List (String × JVal)))
    (K : List String) (hKne : K ≠ []) (hnd : K.Nodup)
    (hkeys : ∀ r ∈ recs, r.map Prod.fst = K) :
    csvRecords (to_csv (Df.mk K (dfRows K recs)))
      = recs.map (fun r => r.map (fun kv => (kv.1, cellToString kv.2))) := by
  unfold csvRecords
  rw [parseCsv_to_csv_uniform recs K hKne hnd hkeys]
  show (recs.map (fun r => r.map (fun kv => cellToString kv.2))).map
      (fun row => K.zip row)
    = recs.map (fun r => r.map (fun kv => (kv.1, cellToString kv.2)))
  rw [List.map_map]
  apply List.map_congr_left
  intro r hr
  simp only [Function.comp_apply]
  rw [← hkeys r hr, List.zip_map']

/-- A scalar cell's rendered string reads back as the original value up to
numeric coercion. -/
theorem cellMatches_cellToString (v : JVal) (h : scalarCell v = true) :
    cellMatches v (cellToString v) = true := by
  cases v <;> simp_all [scalarCell, cellMatches, cellToString, pyRepr]

/-- A record of scalar cells agrees with its own stringification. -/
theorem recordMatches_self (r : List (String × JVal))
    (h : ∀ kv ∈ r, scalarCell kv.2 = true) :
    recordMatches r (r.map (fun kv => (kv.1, cellToString kv.2))) = true := by
  induction r with
  | nil => rfl
  | cons kv t ih =>
    simp only [List.map_cons, recordMatches]
    have h1 := cellMatches_cellToString kv.2 (h kv (List.mem_cons_self kv t))
    have h2 := ih (fun x hx => h x (List.mem_cons_of_mem _ hx))
    simp [h1, h2]

/-- Records of scalar cells agree with their own stringification. -/
theorem recordsMatch_stringified (recs : List (List (String × JVal)))
    (h : ∀ r ∈ recs, ∀ kv ∈ r, scalarCell kv.2 = true) :
    recordsMatch recs
      (recs.map (fun r => r.map (fun kv => (kv.1, cellToString kv.2)))) = true := by
  induction recs with
  | nil => rfl
  | cons r t ih =>
    simp only [List.map_cons, recordsMatch]
    have h1 := recordMatches_self r (h r (List.mem_cons_self r t))
    have h2 := ih (fun x hx => h x (List.mem_cons_of_mem _ hx))
    simp [h1, h2]

/-- Claim C4 (amended): for a tabular payload whose records all carry the
same non-empty, duplicate-free key list and whose values are strings or
integers, the CSV export round-trips: `pd.DataFrame` builds exactly those
records, and re-parsing the exported CSV yields the same records, each
value read back as its string form — equal to the original up to the type
coercion of numeric-looking strings that the claim sets aside.  Nested or
missing values are excluded: the counterexample shows a nested value does
not survive the export. -/
theorem c4_csv_export_round_trip (recs : List (List (String × JVal)))
    (K : List String) (hne : recs ≠ []) (hKne : K ≠ []) (hnd : K.Nodup)
    (hkeys : ∀ r ∈ recs, r.map Prod.fst = K)
    (hcells : ∀ r ∈ recs, ∀ kv ∈ r, scalarCell kv.2 = true) :
    df_of_records (recs.map JVal.jobj) = .ok (Df.mk K (dfRows K recs)) ∧
    csvRecords (to_csv (Df.mk K (dfRows K recs)))
      = recs.map (fun r => r.map (fun kv => (kv.1, cellToString kv.2))) ∧
    recordsMatch recs (csvRecords (to_csv (Df.mk K (dfRows K recs)))) = true := by
  have h2 := csvRecords_to_csv_uniform recs K hKne hnd hkeys
  refine ⟨?_, h2, ?_⟩
  · simp [df_of_records, allObjs_map_jobj, dfColumns_uniform recs K hne hkeys]
  · rw [h2]
    exact recordsMatch_stringified recs hcells

/-- Witness for C4 (amended) on two records whose cells exercise the comma
and quote escaping of the CSV writer. -/
theorem c4_witness :
    df_of_records
        [JVal.jobj [("a", JVal.jint 1), ("b", JVal.jstr "x,y")],
         JVal.jobj [("a", JVal.jint 2), ("b", JVal.jstr "z\"w")]]
      = .ok (Df.mk ["a", "b"]
          (dfRows ["a", "b"]
            [[("a", JVal.jint 1), ("b", JVal.jstr "x,y")],
             [("a", JVal.jint 2), ("b", JVal.jstr "z\"w")]])) ∧
    csvRecords (to_csv (Df.mk ["a", "b"]
        (dfRows ["a", "b"]
          [[("a", JVal.jint 1), ("b", JVal.jstr "x,y")],
           [("a", JVal.jint 2), ("b", JVal.jstr "z\"w")]])))
      = [[("a", JVal.jint 1), ("b", JVal.jstr "x,y")],
         [("a", JVal.jint 2), ("b", JVal.jstr "z\"w")]].map
          (fun r => r.map (fun kv => (kv.1, cellToString kv.2))) ∧
    recordsMatch
      [[("a", JVal.jint 1), ("b", JVal.jstr "x,y")],
       [("a", JVal.jint 2), ("b", JVal.jstr "z\"w")]]
      (csvRecords (to_csv (Df.mk ["a", "b"]
        (dfRows ["a", "b"]
          [[("a", JVal.jint 1), ("b", JVal.jstr "x,y")],
           [("a", JVal.jint 2), ("b", JVal.jstr "z\"w")]])))) = true := by
  apply c4_csv_export_round_trip
    [[("a", JVal.jint 1), ("b", JVal.jstr "x,y")],
     [("a", JVal.jint 2), ("b", JVal.jstr "z\"w")]]
    ["a", "b"]
  · simp
  · simp
  · decide
  · intro r hr
    rcases List.mem_cons.mp hr with rfl | hr2
    · rfl
    · rcases List.mem_cons.mp hr2 with rfl | hr3
      · rfl
      · simp at hr3
  · intro r hr kv hkv
    rcases List.mem_cons.mp hr with rfl | hr2
    · rcases List.mem_cons.mp hkv with rfl | hkv2
      · rfl
      · rcases List.mem_cons.mp hkv2 with rfl | hkv3
        · rfl
        · simp at hkv3
    · rcases List.mem_cons.mp hr2 with rfl | hr3
      · rcases List.mem_cons.mp hkv with rfl | hkv2
        · rfl
        · rcases List.mem_cons.mp hkv2 with rfl | hkv3
          · rfl
          · simp at hkv3
      · simp at hr3

/-- Counterexample to Claim C4 as stated.  The payload `"[\x7b\"a\": []\x7d]"`
is classified tabular (a non-empty array whose first element is an object),
but its one cell is a nested array: the DataFrame renders it as the text
`[]`, and the re-parsed CSV holds the string `"[]"` where the original
record held an array — not the same record even ignoring numeric
coercion. -/
theorem c4_counterexample :
    classify "[\x7b\"a\": []\x7d]" = .tabular ∧
    jsonLoads "[\x7b\"a\": []\x7d]" = .ok (.jarr [.jobj [("a", .jarr [])]]) ∧
    df_of_records [.jobj [("a", .jarr [])]]
      = .ok (Df.mk ["a"] [[some (.jarr [])]]) ∧
    csvRecords (to_csv (Df.mk ["a"] [[some (.jarr [])]])) = [[("a", "[]")]] ∧
    recordsMatch [[("a", JVal.jarr [])]] [[("a", "[]")]] = false :=
  ⟨rfl, rfl, rfl, rfl, rfl⟩
